import Mathlib

/-!
Verification of the `clarity` evals pipeline.

This file gives a shallow embedding, in Lean 4, of the deterministic core of
the repository's training loop (`evals/train.py`), of the standalone
match-type evaluator (`evals/evaluate.py`), and of the simple evaluator class
(`evals/evaluator.py`), together with theorems settling the specification
claims about them.

Modelling conventions:
* Python dicts keyed by id are association lists; lookup takes the most
  recently inserted binding, matching dict overwrite semantics.
* Python sets of flag-name strings are `Finset String`.
* Python floats are `ℚ`; `round(x, d)` is `pyRound d` (round half to even,
  Python's bankers rounding, computed exactly on rationals).
* Network calls (the target classification API, the judge/optimizer LLM) are
  oracles passed in as explicit function arguments; exceptions escaping a
  Python function are `Except.error`.
* Truthiness tests on optional error strings (`if p.get("error")`) are
  `truthyErr` (`None` and `""` are falsy).
-/

namespace Clarity

/-- Bankers rounding of a rational to an integer: round half to even,
as Python's builtin `round` does. -/
def roundHalfEven (q : ℚ) : ℤ :=
  let f : ℤ := ⌊q⌋
  let r : ℚ := q - f
  if r < 1/2 then f
  else if 1/2 < r then f + 1
  else if f % 2 = 0 then f else f + 1

/-- Python's `round(q, d)`: bankers rounding at `d` decimal places,
computed exactly on rationals. -/
def pyRound (d : ℕ) (q : ℚ) : ℚ :=
  (roundHalfEven (q * (10 : ℚ) ^ d) : ℚ) / (10 : ℚ) ^ d

/-- A dataset entry (`DatasetEntry` of the spec; one element of
`data/generate/dataset.json`).  Fields read with `.get` and a default in
`score` are `Option`-valued. -/
structure Entry where
  id : ℕ
  message : String
  ground_truth_flags : List String
  case_type : Option String
  category : Option String
deriving Repr, DecidableEq

/-- A prediction as built by `evaluate_single` in `evals/train.py`. -/
structure Prediction where
  id : ℕ
  predicted_flags : List String
  reason : String
  error : Option String
deriving Repr, DecidableEq

/-- Truthiness of `p.get("error")`: `None` and the empty string are falsy. -/
def truthyErr : Option String → Bool
  | none => false
  | some s => s ≠ ""

/-- The JSON body of a target-API response, as read by `evaluate_single`
(`data.get("error", ...)`, `data.get("flags", [])`, `data.get("reason", "")`). -/
structure EvalBody where
  error : Option String
  flags : List String
  reason : Option String
deriving Repr, DecidableEq

/-- Outcome of one HTTP POST to the target API, from the caller's point of
view: a status code with a JSON-parsed body, a response whose body fails to
parse as JSON (`resp.json()` raises), or a transport-level failure
(`httpx` timeout or connection error raised by `client.post`). -/
inductive HttpOutcome where
  | response (status : ℕ) (body : EvalBody)
  | badJson (status : ℕ) (msg : String)
  | transportFailure (msg : String)
deriving Repr, DecidableEq

/-- `evaluate_single` (evals/train.py, lines 61-91) applied to the outcome of
its single `client.post`.  The function body has no try/except: a transport
failure raised by `client.post`, or a JSON decode error raised by
`resp.json()`, escapes as an exception (`Except.error`).  Only a parsed
response is turned into a `Prediction`: non-200 statuses produce an error
prediction with empty flags, 200 produces a normal one. -/
def evaluate_single (entry : Entry) (outcome : HttpOutcome) : Except String Prediction :=
  match outcome with
  | .transportFailure msg => .error msg
  | .badJson _ msg => .error msg
  | .response status body =>
      if status ≠ 200 then
        .ok { id := entry.id
              predicted_flags := []
              reason := ""
              error := some (body.error.getD ("HTTP " ++ toString status)) }
      else
        .ok { id := entry.id
              predicted_flags := body.flags
              reason := body.reason.getD ""
              error := none }

/-- `evaluate_all` (evals/train.py, lines 94-102): fan out `evaluate_single`
over the dataset and gather.  `asyncio.gather` is used without
`return_exceptions=True`, so the first exception raised by any task
propagates out of `evaluate_all` and the result mapping is never built;
otherwise the list of predictions (keyed by id downstream) is returned.
The per-item transport outcome is the oracle `transport`. -/
def evaluate_all (dataset : List Entry) (transport : Entry → HttpOutcome) :
    Except String (List Prediction) :=
  dataset.mapM (fun e => evaluate_single e (transport e))

/-- Lookup in the `{r["id"]: r}` dict built by `evaluate_all`: the most
recently inserted binding for an id wins, as for a Python dict. -/
def predLookup (preds : List Prediction) (i : ℕ) : Option Prediction :=
  preds.reverse.find? (fun p => p.id = i)

/-- The ground-truth flag set of an entry:
`set(entry.get("ground_truth_flags", []))`. -/
def gtSet (e : Entry) : Finset String := e.ground_truth_flags.toFinset

/-- The predicted flag set of an optional prediction:
`set(pred.get("predicted_flags", []))` where `pred = predictions.get(id, {})`. -/
def pdSet (p : Option Prediction) : Finset String :=
  ((p.map Prediction.predicted_flags).getD []).toFinset

/-- One element of the `results` list built by `score`
(evals/train.py, lines 107-146). -/
structure ScoredResult where
  id : ℕ
  case_type : String
  category : String
  message : String
  ground_truth_flags : Finset String
  predicted_flags : Finset String
  reason : String
  passed : Bool
  error : Option String
deriving DecidableEq

/-- The result record appended by `score` for one dataset entry:
look the prediction up by id (`predictions.get(entry_id, {})`, so a missing
prediction behaves as the empty dict), compare ground-truth and predicted
flag sets, and carry `pred.get("reason", "")` and `pred.get("error")`
through. -/
def scoreOne (preds : List Prediction) (e : Entry) : ScoredResult :=
  let pred := predLookup preds e.id
  let gt := gtSet e
  let pd := pdSet pred
  { id := e.id
    case_type := e.case_type.getD "unknown"
    category := e.category.getD ""
    message := e.message
    ground_truth_flags := gt
    predicted_flags := pd
    reason := (pred.map Prediction.reason).getD ""
    passed := gt = pd
    error := pred.bind Prediction.error }

/-- The `results` list of `score`, in dataset order. -/
def scoreResults (dataset : List Entry) (preds : List Prediction) : List ScoredResult :=
  dataset.map (scoreOne preds)

/-- Value of `per_flag_tp[flag]` after the `score` loop (0 when the key is
absent): the number of entries for which `flag ∈ gt & pd_flags`. -/
def perFlagTP (dataset : List Entry) (preds : List Prediction) (flag : String) : ℕ :=
  dataset.countP (fun e => flag ∈ gtSet e ∧ flag ∈ pdSet (predLookup preds e.id))

/-- Value of `per_flag_fp[flag]` after the `score` loop (0 when absent):
the number of entries for which `flag ∈ pd_flags - gt`. -/
def perFlagFP (dataset : List Entry) (preds : List Prediction) (flag : String) : ℕ :=
  dataset.countP (fun e => flag ∈ pdSet (predLookup preds e.id) ∧ flag ∉ gtSet e)

/-- Value of `per_flag_fn[flag]` after the `score` loop (0 when absent):
the number of entries for which `flag ∈ gt - pd_flags`. -/
def perFlagFN (dataset : List Entry) (preds : List Prediction) (flag : String) : ℕ :=
  dataset.countP (fun e => flag ∈ gtSet e ∧ flag ∉ pdSet (predLookup preds e.id))

/-- `all_flag_names = set(list(per_flag_tp) + list(per_flag_fp) + list(per_flag_fn))`:
a flag is a key of one of the three counters exactly when some entry mentions
it in its ground-truth or predicted set (`gt & pd ∪ pd - gt ∪ gt - pd = gt ∪ pd`). -/
def allFlagNames (dataset : List Entry) (preds : List Prediction) : Finset String :=
  dataset.foldr (fun e acc => (gtSet e ∪ pdSet (predLookup preds e.id)) ∪ acc) ∅

/-- One value of the `per_flag_metrics` dict built by `score`
(evals/train.py, lines 148-157). -/
structure FlagMetric where
  precision : ℚ
  recall' : ℚ
  tp : ℕ
  fp : ℕ
  fneg : ℕ
deriving Repr, DecidableEq

/-- The `per_flag_metrics` dict of `score` as a map: it has one key per
element of `all_flag_names`, holding `round(tp/(tp+fp) if tp+fp > 0 else 0.0, 3)` as precision and the
analogous recall (the source keys `"recall"` and `"fn"` are the fields
`recall'` and `fneg`, since `recall` and `fn` are reserved in Lean). -/
def perFlagMetrics (dataset : List Entry) (preds : List Prediction) (flag : String) :
    Option FlagMetric :=
  if flag ∈ allFlagNames dataset preds then
    let tp := perFlagTP dataset preds flag
    let fp := perFlagFP dataset preds flag
    let fneg := perFlagFN dataset preds flag
    some { precision := pyRound 3 (if 0 < tp + fp then (tp : ℚ) / (tp + fp) else 0)
           recall' := pyRound 3 (if 0 < tp + fneg then (tp : ℚ) / (tp + fneg) else 0)
           tp := tp, fp := fp, fneg := fneg }
  else none

/-- One value of the `by_case_type` dict of `score`. -/
structure CaseTypeStat where
  total : ℕ
  passed : ℕ
  pass_rate : ℚ
deriving Repr, DecidableEq

/-- `by_case_type[ct]["total"]` (0 when the key is absent). -/
def caseTypeTotal (rs : List ScoredResult) (ct : String) : ℕ :=
  rs.countP (fun r => r.case_type = ct)

/-- `by_case_type[ct]["passed"]` (0 when the key is absent). -/
def caseTypePassed (rs : List ScoredResult) (ct : String) : ℕ :=
  rs.countP (fun r => r.case_type = ct ∧ r.passed)

/-- The `by_case_type` entry of the metrics dict: a key exists exactly for
case types occurring in the dataset, holding
`round(100 * passed / total, 1) if total else 0` as pass rate. -/
def byCaseType (rs : List ScoredResult) (ct : String) : Option CaseTypeStat :=
  let t := caseTypeTotal rs ct
  if t = 0 then none
  else some { total := t
              passed := caseTypePassed rs ct
              pass_rate := if 0 < t then pyRound 1 (100 * (caseTypePassed rs ct : ℚ) / t) else 0 }

/-- The `metrics` dict returned by `score` (evals/train.py, lines 159-183). -/
structure Metrics where
  total : ℕ
  passed : ℕ
  overall_pass_rate : ℚ
  by_case_type : String → Option CaseTypeStat
  per_flag : String → Option FlagMetric
  false_positive_rate_on_negatives : ℚ

/-- `tn_cases = [r for r in results if r["case_type"] == "true_negative"]`,
counted. -/
def tnTotal (rs : List ScoredResult) : ℕ :=
  (rs.filter (fun r => r.case_type = "true_negative")).length

/-- `tn_fp = sum(1 for r in tn_cases if not r["passed"])`. -/
def tnFp (rs : List ScoredResult) : ℕ :=
  (rs.filter (fun r => r.case_type = "true_negative")).countP (fun r => ¬ r.passed)

/-- `score(dataset, predictions)` (evals/train.py, lines 107-183):
the scored results list and the metrics dict. -/
def score (dataset : List Entry) (preds : List Prediction) :
    List ScoredResult × Metrics :=
  let rs := scoreResults dataset preds
  let total := rs.length
  let total_passed := rs.countP (fun r => r.passed)
  (rs,
   { total := total
     passed := total_passed
     overall_pass_rate := if total ≠ 0 then pyRound 1 (100 * (total_passed : ℚ) / total) else 0
     by_case_type := byCaseType rs
     per_flag := perFlagMetrics dataset preds
     false_positive_rate_on_negatives :=
       if tnTotal rs ≠ 0 then pyRound 1 (100 * (tnFp rs : ℚ) / tnTotal rs) else 0 })

/-- A result record as assembled by `Evaluator._call_api` in
`evals/evaluator.py` and consumed by `evals/evaluate.py`
(only the fields the scoring functions read). -/
structure EvalResult where
  id : ℕ
  message : String
  expected_flags : List String
  actual_flags : List String
  expected_is_flagged : Bool
  actual_is_flagged : Bool
deriving Repr, DecidableEq

/-- `get_match_type` (evals/evaluate.py, lines 13-32): classify one result
into one of the six coarse buckets. -/
def get_match_type (r : EvalResult) : String :=
  let expected := r.expected_flags.toFinset
  let actual := r.actual_flags.toFinset
  if r.expected_is_flagged = false ∧ r.actual_is_flagged = false then "true_negative"
  else if r.expected_is_flagged = false ∧ r.actual_is_flagged = true then "false_positive"
  else if r.expected_is_flagged = true ∧ r.actual_is_flagged = false then "missed"
  else if expected = actual then "exact"
  else if expected ∩ actual ≠ ∅ then "partial"
  else "no_overlap"

/-- `by_type.get(t, 0)` in `calculate_summary`: how many results fall in
bucket `t`. -/
def bucketCount (results : List EvalResult) (t : String) : ℕ :=
  results.countP (fun r => get_match_type r = t)

/-- The summary dict of `calculate_summary` (evals/evaluate.py, lines 35-56).
The source key `"partial"` is the field `partial_count` (`partial` is
reserved in Lean); the wall-clock `timestamp` field is omitted from the
model. -/
structure Summary where
  total : ℕ
  detection_accuracy : ℚ
  true_positives : ℕ
  true_negatives : ℕ
  false_positives : ℕ
  missed : ℕ
  exact : ℕ
  partial_count : ℕ
  no_overlap : ℕ
deriving Repr, DecidableEq

/-- `calculate_summary(results)` (evals/evaluate.py, lines 35-56):
`tp = exact + partial + no_overlap`, `tn = true_negative` count, and
`detection_accuracy = round((tp + tn) / total * 100, 2) if total else 0`. -/
def calculate_summary (results : List EvalResult) : Summary :=
  let total := results.length
  let tp := bucketCount results "exact" + bucketCount results "partial" +
      bucketCount results "no_overlap"
  let tn := bucketCount results "true_negative"
  { total := total
    detection_accuracy :=
      if total ≠ 0 then pyRound 2 (((tp + tn : ℕ) : ℚ) / total * 100) else 0
    true_positives := tp
    true_negatives := tn
    false_positives := bucketCount results "false_positive"
    missed := bucketCount results "missed"
    exact := bucketCount results "exact"
    partial_count := bucketCount results "partial"
    no_overlap := bucketCount results "no_overlap" }

/-- `is_exact_match` (evals/evaluator.py, lines 11-14): flag sets equal AND
flagged booleans equal. -/
def is_exact_match (r : EvalResult) : Bool :=
  (r.expected_flags.toFinset = r.actual_flags.toFinset) ∧
    r.expected_is_flagged = r.actual_is_flagged

/-- The dict returned by `Evaluator.get_metrics`. -/
structure EvalMetrics where
  total : ℕ
  exact : ℕ
  accuracy : ℚ
deriving Repr, DecidableEq

/-- `Evaluator.get_metrics` (evals/evaluator.py, lines 67-74):
`accuracy = round(exact / total * 100, 2) if total else 0`. -/
def get_metrics (results : List EvalResult) : EvalMetrics :=
  let total := results.length
  let exact := results.countP is_exact_match
  { total := total
    exact := exact
    accuracy := if total ≠ 0 then pyRound 2 ((exact : ℚ) / total * 100) else 0 }

/-- `Evaluator.get_wrong` (evals/evaluator.py, lines 76-77). -/
def get_wrong (results : List EvalResult) : List EvalResult :=
  results.filter (fun r => ¬ is_exact_match r)

/-- `IMPROVEMENT_THRESHOLD` (evals/config/train.py). -/
def IMPROVEMENT_THRESHOLD : ℚ := 1

/-- `MAX_ITERATIONS` (evals/config/train.py). -/
def MAX_ITERATIONS : ℕ := 5

/-- A judgment as assembled by `judge_single` (evals/train.py, lines 199-216):
the judge LLM's JSON output plus the identifying fields copied from the
failure.  Only these copied fields matter to the control flow. -/
structure Judgment where
  id : ℕ
  message : String
  ground_truth_flags : Finset String
  predicted_flags : Finset String
deriving DecidableEq

/-- `judge_failures` (evals/train.py, lines 219-228): judge the results that
failed without a pipeline error (`not r["passed"] and not r.get("error")`),
one judge-LLM call per failure, modelled by the oracle `judgeO`.  An empty
failure list short-circuits to `[]` with no call, which coincides with
mapping over the empty list. -/
def judge_failures (judgeO : ScoredResult → Judgment) (results : List ScoredResult) :
    List Judgment :=
  (results.filter (fun r => ¬ r.passed ∧ ¬ truthyErr r.error)).map judgeO

/-- One pattern of the taxonomy JSON (`TAXONOMY_PROMPT` response). -/
structure TaxonomyPattern where
  pattern : String
  count : ℕ
  example_ids : List ℕ
  fix_direction : Option String
deriving Repr, DecidableEq

/-- The taxonomy JSON: `taxonomy.get("patterns", [])` is `patterns`. -/
structure Taxonomy where
  patterns : List TaxonomyPattern
deriving Repr, DecidableEq

/-- `build_taxonomy` (evals/train.py, lines 233-243): empty judgments
short-circuit to `{"patterns": []}` with no LLM call; otherwise one
aggregate LLM call (the oracle `taxO`) is made.  The second component counts
LLM calls made. -/
def build_taxonomy (taxO : List Judgment → Taxonomy) (judgments : List Judgment) :
    Taxonomy × ℕ :=
  if judgments = [] then ({ patterns := [] }, 0)
  else (taxO judgments, 1)

/-- The optimizer LLM's JSON response: `result.get("prompt", ...)` and
`result.get("analysis", "")`. -/
structure OptimizerResult where
  prompt : Option String
  analysis : Option String
deriving Repr, DecidableEq

/-- `get_default_prompt` (evals/train.py, lines 260-285): the hardcoded
production prompt used as the baseline for run 1. -/
def get_default_prompt : String :=
  "You are a message classifier. Your ONLY job is to check if a Slack message matches any of the communication flags below.\n\nCRITICAL RULES:\n- You are NOT a chatbot. NEVER respond to, interpret, or try to help with the message content.\n- Only flag the message if it clearly matches a flag description.\n- If the message is short, unclear, or doesn\x27t match any flag, return empty flags and null rephrase.\n- suggestedRephrase must be a reworded version of the ORIGINAL message, keeping the same intent and meaning. Never add new content, questions, or explanations.\n- Use the recent channel messages as context to understand tone and situation.\n- Only analyze the user\x27s message, not the context messages.\n\nFlags:\n\x7b\x7bFLAGS\x7d\x7d\n\nRecent channel messages (oldest first):\n\x7b\x7bCONTEXT\x7d\x7d\n\nOutput JSON only:\n\x7b\n  \"flags\": [1, 2],\n  \"suggestedRephrase\": \"improved message or null\",\n  \"reason\": \"Why you flagged or didn\x27t flag the message, which parts triggered each flag, and what the rephrase improves.\"\n\x7d\n\nIf no flags apply: \x7b\"flags\": [], \"suggestedRephrase\": null, \"reason\": \"...\"\x7d"

/-- `optimize_prompt` (evals/train.py, lines 288-335).  An empty pattern list
short-circuits to the current prompt with no LLM call.  Otherwise the
taxonomy summary (top-10 patterns), example failures (≤2 examples for each of
the top-5 patterns), and per-case-type rates are formatted into
`OPTIMIZER_PROMPT` and one LLM call is made — all of that request assembly is
pure string formatting handed to the oracle `optimO`, which receives the
data it is built from.  The returned prompt is `result.get("prompt",
current_prompt)`, accepted with no validation.  The second component counts
LLM calls made. -/
def optimize_prompt (optimO : String → Metrics → Taxonomy → List Judgment → OptimizerResult)
    (current_prompt : String) (metrics : Metrics) (taxonomy : Taxonomy)
    (judgments : List Judgment) : String × ℕ :=
  if taxonomy.patterns = [] then (current_prompt, 0)
  else (((optimO current_prompt metrics taxonomy judgments).prompt).getD current_prompt, 1)

/-- The external world of one training run: the target API (via
`evaluate_all`, here assumed to return rather than raise — the raising case
is `evaluate_all` itself), and the judge/taxonomy/optimizer LLM calls.
`evaluate` receives the run number and the current prompt override. -/
structure Oracles where
  evaluate : ℕ → Option String → List Prediction
  judge : ScoredResult → Judgment
  taxonomy : List Judgment → Taxonomy
  optimizer : String → Metrics → Taxonomy → List Judgment → OptimizerResult

/-- Observable bookkeeping of a training run: the prompt passed to each
run's evaluation phase (in run order), how many runs were started, the runs
for which `score` was invoked, the artifacts written by `save_run`
(run number × filename, in write order), and the optimizer-LLM calls made. -/
structure RunLog where
  promptsUsed : List (Option String)
  runsStarted : ℕ
  scoredRuns : List ℕ
  artifacts : List (ℕ × String)
  optimizeCalls : ℕ
  optimizedRuns : List ℕ
deriving Repr, DecidableEq

/-- The loop-carried state of `run_training`: `current_prompt`,
`prev_pass_rate`, and the log of observable effects. -/
structure LoopState where
  currentPrompt : Option String
  prevPassRate : ℚ
  log : RunLog
deriving Repr, DecidableEq

/-- The state at the top of `run_training`'s loop:
`current_prompt = None`, `prev_pass_rate = 0`, nothing logged yet. -/
def initState : LoopState :=
  { currentPrompt := none
    prevPassRate := 0
    log := { promptsUsed := [], runsStarted := 0, scoredRuns := [], artifacts := []
             optimizeCalls := 0, optimizedRuns := [] } }

/-- One iteration of the `for run_num in range(1, max_iter + 1)` loop of
`run_training` (evals/train.py, lines 365-439), with no hard set configured
(`load_hard_set()` returns `None` when the file is absent).  Returns the
state after the iteration and whether the iteration executed `break`.
Mirrors the source order: evaluate; abort if any prediction has a truthy
error (before scoring, writing nothing); score and write
results/metrics/prompt artifacts; stop in evaluate-only mode; stop on
sub-threshold improvement (runs after the first) or on a 100% pass rate;
update `prev_pass_rate`; judge failures and write `failures.json`; stop on
no judgments; build taxonomy and write `taxonomy.json`; optimize the prompt
and carry it into the next iteration.  The `run_num == max_iter` check at
the end of the source loop body only prints; the loop then ends because the
range is exhausted. -/
def trainStep (O : Oracles) (dataset : List Entry) (evaluateOnly : Bool)
    (runNum : ℕ) (st : LoopState) : LoopState × Bool :=
  let preds := O.evaluate runNum st.currentPrompt
  let log1 := { st.log with
    promptsUsed := st.log.promptsUsed ++ [st.currentPrompt]
    runsStarted := st.log.runsStarted + 1 }
  let errored := preds.filter (fun p => truthyErr p.error)
  if errored ≠ [] then ({ st with log := log1 }, true)
  else
    let scored := score dataset preds
    let metrics := scored.2
    let log2 := { log1 with
      scoredRuns := log1.scoredRuns ++ [runNum]
      artifacts := log1.artifacts ++
        [(runNum, "results.json"), (runNum, "metrics.json"), (runNum, "prompt.txt")] }
    if evaluateOnly then ({ st with log := log2 }, true)
    else
      let rate := metrics.overall_pass_rate
      if 1 < runNum ∧ rate - st.prevPassRate < IMPROVEMENT_THRESHOLD then
        ({ st with log := log2 }, true)
      else if rate = 100 then ({ st with log := log2 }, true)
      else
        let judgments := judge_failures O.judge scored.1
        let log3 := { log2 with artifacts := log2.artifacts ++ [(runNum, "failures.json")] }
        if judgments = [] then ({ st with prevPassRate := rate, log := log3 }, true)
        else
          let tax := (build_taxonomy O.taxonomy judgments).1
          let log4 := { log3 with artifacts := log3.artifacts ++ [(runNum, "taxonomy.json")] }
          let base := st.currentPrompt.getD get_default_prompt
          let opt := optimize_prompt O.optimizer base metrics tax judgments
          let log5 := { log4 with
            optimizeCalls := log4.optimizeCalls + opt.2
            optimizedRuns :=
              if opt.2 = 0 then log4.optimizedRuns else log4.optimizedRuns ++ [runNum] }
          ({ currentPrompt := some opt.1, prevPassRate := rate, log := log5 }, false)

/-- The `run_training` loop, as structural recursion on the number of
remaining iterations: run `trainStep` for runs `runNum, runNum+1, …` until a
`break` or until the range is exhausted. -/
def runLoopAux (O : Oracles) (dataset : List Entry) (evaluateOnly : Bool) :
    ℕ → ℕ → LoopState → LoopState
  | 0, _, st => st
  | fuel + 1, runNum, st =>
      let step := trainStep O dataset evaluateOnly runNum st
      if step.2 then step.1 else runLoopAux O dataset evaluateOnly fuel (runNum + 1) step.1

/-- `run_training(max_iterations, evaluate_only)` (evals/train.py,
lines 353-443), final loop state.  `max_iter = max_iterations or
MAX_ITERATIONS` uses Python truthiness: `None` and `0` fall back to the
configured default. -/
def run_training (O : Oracles) (dataset : List Entry) (maxIterations : Option ℕ)
    (evaluateOnly : Bool) : LoopState :=
  let maxIter := match maxIterations with
    | some n => if n = 0 then MAX_ITERATIONS else n
    | none => MAX_ITERATIONS
  runLoopAux O dataset evaluateOnly maxIter 1 initState

/-! ## Structural constraints on optimizer output (spec §4.5)

The spec requires a returned prompt to stay under 5000 characters and to
contain exactly one occurrence of each of the two template placeholders.
These definitions state that constraint (they deliberately follow the
spec's words; the source has no corresponding validation code). -/

/-- Occurrences of `pat` in `s` (at any position, overlap allowed; the
placeholder patterns cannot overlap themselves). -/
def countSubstrOcc (s pat : List Char) : ℕ :=
  (List.range (s.length + 1)).countP (fun i => pat.isPrefixOf (s.drop i))

/-- The flag-list template placeholder. -/
def flagsPlaceholder : String := "\x7b\x7bFLAGS\x7d\x7d"

/-- The conversation-context template placeholder. -/
def contextPlaceholder : String := "\x7b\x7bCONTEXT\x7d\x7d"

/-- The spec's structural constraints on a prompt: total length under 5000
characters, and each of the two placeholders present exactly once. -/
def promptMeetsConstraints (p : String) : Bool :=
  p.length < 5000 ∧
    countSubstrOcc p.toList flagsPlaceholder.toList = 1 ∧
    countSubstrOcc p.toList contextPlaceholder.toList = 1

/-! ## Concrete fixtures used by witnesses and counterexamples -/

/-- Scenario A, entry 1: `true_positive`, ground truth `{"Rudeness"}`. -/
def eA1 : Entry :=
  { id := 1, message := "m1", ground_truth_flags := ["Rudeness"]
    case_type := some "true_positive", category := none }

/-- Scenario A, entry 2: `true_negative`, empty ground truth. -/
def eA2 : Entry :=
  { id := 2, message := "m2", ground_truth_flags := []
    case_type := some "true_negative", category := none }

/-- Scenario A, entry 3: `true_positive`, ground truth
`{"Vagueness", "Rudeness"}`. -/
def eA3 : Entry :=
  { id := 3, message := "m3", ground_truth_flags := ["Vagueness", "Rudeness"]
    case_type := some "true_positive", category := none }

/-- Scenario A, prediction for entry 1: `{"Rudeness"}` (exact, passes). -/
def pA1 : Prediction := { id := 1, predicted_flags := ["Rudeness"], reason := "", error := none }

/-- Scenario A, prediction for entry 2: `{"Vagueness"}` (spurious, fails). -/
def pA2 : Prediction := { id := 2, predicted_flags := ["Vagueness"], reason := "", error := none }

/-- Scenario A, prediction for entry 3: `{"Rudeness"}` (partial overlap, fails). -/
def pA3 : Prediction := { id := 3, predicted_flags := ["Rudeness"], reason := "", error := none }

/-! ## Further fixtures used by the claim theorems -/

/-- The six coarse buckets of `get_match_type`. -/
def matchTypes : List String :=
  ["true_negative", "false_positive", "missed", "exact", "partial", "no_overlap"]

/-- Whether an HTTP outcome is a parsed response (as opposed to a raised
transport error or JSON decode error). -/
def isResponse : HttpOutcome → Bool
  | .response _ _ => true
  | _ => false

/-- The prediction `evaluate_single` builds from a parsed response: the two
return payloads of evals/train.py lines 79-91, selected by the status
check. -/
def responsePrediction (e : Entry) (status : ℕ) (body : EvalBody) : Prediction :=
  if status ≠ 200 then
    { id := e.id, predicted_flags := [], reason := ""
      error := some (body.error.getD ("HTTP " ++ toString status)) }
  else
    { id := e.id, predicted_flags := body.flags, reason := body.reason.getD ""
      error := none }

/-- A transport in which entry 2's request times out and entry 1's request
succeeds. -/
def timeoutTransport : Entry → HttpOutcome := fun e =>
  if e.id = 1 then .response 200 { error := none, flags := ["Rudeness"], reason := some "ok" }
  else .transportFailure "httpx.ReadTimeout"

/-- A transport in which entry 1 gets a 200 response and entry 2 gets a
parsed 500 error response. -/
def respTransport : Entry → HttpOutcome := fun e =>
  if e.id = 1 then .response 200 { error := none, flags := ["Rudeness"], reason := some "ok" }
  else .response 500 { error := some "boom", flags := [], reason := none }

/-- An oracle whose evaluation phase always returns a single errored
prediction (HTTP 500 captured by the non-2xx path). -/
def errOracle : Oracles :=
  { evaluate := fun _ _ => [{ id := 1, predicted_flags := [], reason := "", error := some "HTTP 500" }]
    judge := fun r => { id := r.id, message := r.message
                        ground_truth_flags := r.ground_truth_flags
                        predicted_flags := r.predicted_flags }
    taxonomy := fun _ => { patterns := [] }
    optimizer := fun _ _ _ _ => { prompt := none, analysis := none } }

/-- A prediction with no error that misses the ground-truth flag of `eA1`
(so the run fails, is judged, and reaches the optimizer). -/
def predMiss : Prediction := { id := 1, predicted_flags := [], reason := "", error := none }

/-- An oracle under which every run fails, gets judged into one taxonomy
pattern, and the optimizer returns the prompt `"new prompt"`. -/
def failOracle : Oracles :=
  { evaluate := fun _ _ => [predMiss]
    judge := fun r => { id := r.id, message := r.message
                        ground_truth_flags := r.ground_truth_flags
                        predicted_flags := r.predicted_flags }
    taxonomy := fun _ => { patterns := [{ pattern := "missed-flag", count := 1
                                          example_ids := [1], fix_direction := none }] }
    optimizer := fun _ _ _ _ => { prompt := some "new prompt", analysis := none } }

/-- `failOracle` with an optimizer that returns the prompt `"broken"`,
which violates the structural constraints (no placeholders). -/
def badPromptOracle : Oracles :=
  { failOracle with optimizer := fun _ _ _ _ => { prompt := some "broken", analysis := none } }

/-! ## Claim C5 -/

/-- Counterexample to claim C5.  On a one-entry dataset with an empty
prediction mapping, `score` produces a result with an empty predicted set
but with `error = None` — not the string `"missing"` the claim requires. -/
theorem C5_counterexample :
    predLookup [] 1 = none ∧
    (score [eA1] []).1.map ScoredResult.error = [none] ∧
    (score [eA1] []).1.map ScoredResult.predicted_flags = [∅] ∧
    (none : Option String) ≠ some "missing" := by
  refine ⟨rfl, by decide, by decide, by decide⟩

/-- Claim C5 as amended: a dataset entry whose id has no prediction is
scored with an empty predicted flag set, empty reason, `error = None`
(`pred.get("error")` on the `{}` default), and passes exactly when its
ground truth is empty; the results list is the per-entry map of this
record. -/
theorem C5_theorem (ds : List Entry) (preds : List Prediction) (e : Entry)
    (h : predLookup preds e.id = none) :
    (scoreOne preds e).predicted_flags = ∅ ∧
    (scoreOne preds e).error = none ∧
    (scoreOne preds e).reason = "" ∧
    ((scoreOne preds e).passed = true ↔ gtSet e = ∅) ∧
    (score ds preds).1 = ds.map (scoreOne preds) := by
  refine ⟨?_, ?_, ?_, ?_, rfl⟩ <;> simp [scoreOne, h, pdSet, eq_comm]

/-- Witness for C5: the one-entry dataset with no predictions. -/
theorem C5_witness :
    (scoreOne [] eA1).predicted_flags = ∅ ∧
    (scoreOne [] eA1).error = none ∧
    (scoreOne [] eA1).reason = "" ∧
    ((scoreOne [] eA1).passed = true ↔ gtSet eA1 = ∅) ∧
    (score [eA1] []).1 = [eA1].map (scoreOne []) :=
  C5_theorem [eA1] [] eA1 rfl

/-! ## Claim C9 -/

/-- Claim C9: with an empty taxonomy pattern list, `optimize_prompt`
returns the current prompt unchanged and makes no LLM call (the second
component counts LLM calls). -/
theorem C9_theorem (optimO : String → Metrics → Taxonomy → List Judgment → OptimizerResult)
    (current : String) (metrics : Metrics) (tax : Taxonomy) (judgments : List Judgment)
    (h : tax.patterns = []) :
    optimize_prompt optimO current metrics tax judgments = (current, 0) := by
  simp [optimize_prompt, h]

/-- Witness for C9: a concrete optimizer oracle that would return a
different prompt if it were called. -/
theorem C9_witness :
    optimize_prompt (fun _ _ _ _ => { prompt := some "other", analysis := none })
      "current" (score [] []).2 { patterns := [] } [] = ("current", 0) :=
  C9_theorem _ "current" (score [] []).2 { patterns := [] } [] rfl

/-! ## Claim C10 -/

/-- Claim C10: in the standalone evaluator, flag-set equality alone is not
enough for an exact match — if the flagged booleans differ the result is
not exact, `get_wrong` includes it, and `get_metrics` counts strictly fewer
exact results than total results. -/
theorem C10_theorem (rs : List EvalResult) (r : EvalResult) (hmem : r ∈ rs)
    (hflags : r.expected_flags.toFinset = r.actual_flags.toFinset)
    (hne : r.expected_is_flagged ≠ r.actual_is_flagged) :
    is_exact_match r = false ∧
    r ∈ get_wrong rs ∧
    (get_metrics rs).exact < (get_metrics rs).total := by
  have hex : is_exact_match r = false := by
    simp [is_exact_match, hflags, hne]
  refine ⟨hex, ?_, ?_⟩
  · simp [get_wrong, List.mem_filter, hmem, hex]
  · have hle : rs.countP is_exact_match ≤ rs.length := List.countP_le_length _
    have hne' : rs.countP is_exact_match ≠ rs.length := by
      intro hcontra
      have := List.countP_eq_length.mp hcontra r hmem
      rw [hex] at this
      exact Bool.false_ne_true this
    exact lt_of_le_of_ne hle hne'

/-- Witness for C10: a result whose flag sets agree but whose flagged
booleans disagree. -/
theorem C10_witness :
    is_exact_match { id := 1, message := "m", expected_flags := ["Rudeness"]
                     actual_flags := ["Rudeness"], expected_is_flagged := true
                     actual_is_flagged := false } = false ∧
    ({ id := 1, message := "m", expected_flags := ["Rudeness"]
       actual_flags := ["Rudeness"], expected_is_flagged := true
       actual_is_flagged := false } : EvalResult) ∈
      get_wrong [{ id := 1, message := "m", expected_flags := ["Rudeness"]
                   actual_flags := ["Rudeness"], expected_is_flagged := true
                   actual_is_flagged := false }] ∧
    (get_metrics [{ id := 1, message := "m", expected_flags := ["Rudeness"]
                    actual_flags := ["Rudeness"], expected_is_flagged := true
                    actual_is_flagged := false }]).exact <
      (get_metrics [{ id := 1, message := "m", expected_flags := ["Rudeness"]
                      actual_flags := ["Rudeness"], expected_is_flagged := true
                      actual_is_flagged := false }]).total :=
  C10_theorem _ _ (by decide) (by decide) (by decide)

/-! ## Claim C6 -/

/-- `round(0.0, d) = 0.0`. -/
lemma pyRound_zero (d : ℕ) : pyRound d 0 = 0 := by
  norm_num [pyRound, roundHalfEven]

/-- A flag is a key of `all_flag_names` exactly when some entry mentions it
in its ground-truth or predicted set. -/
lemma mem_allFlagNames_iff (ds : List Entry) (preds : List Prediction) (flag : String) :
    flag ∈ allFlagNames ds preds ↔
      ∃ e ∈ ds, flag ∈ gtSet e ∨ flag ∈ pdSet (predLookup preds e.id) := by
  induction ds with
  | nil => simp [allFlagNames]
  | cons a l ih =>
      have hstep : allFlagNames (a :: l) preds =
          (gtSet a ∪ pdSet (predLookup preds a.id)) ∪ allFlagNames l preds := rfl
      rw [hstep]
      simp only [Finset.mem_union, ih, List.mem_cons]
      constructor
      · rintro ((h | h) | ⟨e, he, hor⟩)
        · exact ⟨a, Or.inl rfl, Or.inl h⟩
        · exact ⟨a, Or.inl rfl, Or.inr h⟩
        · exact ⟨e, Or.inr he, hor⟩
      · rintro ⟨e, rfl | he, hor⟩
        · rcases hor with h | h
          · exact Or.inl (Or.inl h)
          · exact Or.inl (Or.inr h)
        · exact Or.inr ⟨e, he, hor⟩

/-- The three per-flag counters are jointly positive exactly when some entry
mentions the flag. -/
lemma counts_pos_iff (ds : List Entry) (preds : List Prediction) (flag : String) :
    0 < perFlagTP ds preds flag + perFlagFP ds preds flag + perFlagFN ds preds flag ↔
      ∃ e ∈ ds, flag ∈ gtSet e ∨ flag ∈ pdSet (predLookup preds e.id) := by
  constructor
  · intro h
    have h3 : 0 < perFlagTP ds preds flag ∨ 0 < perFlagFP ds preds flag ∨
        0 < perFlagFN ds preds flag := by omega
    rcases h3 with h1 | h1 | h1 <;>
      · obtain ⟨e, he, hp⟩ := List.countP_pos_iff.mp h1
        simp only [decide_eq_true_eq] at hp
        exact ⟨e, he, by tauto⟩
  · rintro ⟨e, he, hor⟩
    by_cases hgt : flag ∈ gtSet e <;> by_cases hpd : flag ∈ pdSet (predLookup preds e.id)
    · have : 0 < perFlagTP ds preds flag :=
        List.countP_pos_iff.mpr ⟨e, he, by simp [hgt, hpd]⟩
      omega
    · have : 0 < perFlagFN ds preds flag :=
        List.countP_pos_iff.mpr ⟨e, he, by simp [hgt, hpd]⟩
      omega
    · have : 0 < perFlagFP ds preds flag :=
        List.countP_pos_iff.mpr ⟨e, he, by simp [hgt, hpd]⟩
      omega
    · tauto

/-- Counterexample to claim C6.  On a one-entry dataset (ground truth and
prediction both `{"Rudeness"}`), the flag `"Vagueness"` has zero predicted
and zero ground-truth occurrences — and the per-flag metrics dict has no
entry at all for it (`none`), rather than reporting precision = recall = 0.0
as the claim requires. -/
theorem C6_counterexample :
    perFlagTP [eA1] [pA1] "Vagueness" = 0 ∧
    perFlagFP [eA1] [pA1] "Vagueness" = 0 ∧
    perFlagFN [eA1] [pA1] "Vagueness" = 0 ∧
    perFlagMetrics [eA1] [pA1] "Vagueness" = none := by
  refine ⟨by decide, by decide, by decide, by decide⟩

/-- Claim C6 as amended: the per-flag metrics dict has an entry exactly for
flags with at least one TP, FP or FN occurrence; each entry's precision is
TP/(TP+FP) rounded to 3 decimals — 0.0 (not NaN) when TP+FP = 0 — and its
recall is TP/(TP+FN) rounded likewise, 0.0 when TP+FN = 0; a flag with zero
predicted and zero ground-truth occurrences is omitted from the dict, not
reported as 0.0. -/
theorem C6_theorem (ds : List Entry) (preds : List Prediction) (flag : String) :
    (perFlagMetrics ds preds flag ≠ none ↔
      0 < perFlagTP ds preds flag + perFlagFP ds preds flag + perFlagFN ds preds flag) ∧
    (∀ m, perFlagMetrics ds preds flag = some m →
      m.tp = perFlagTP ds preds flag ∧
      m.fp = perFlagFP ds preds flag ∧
      m.fneg = perFlagFN ds preds flag ∧
      m.precision = pyRound 3 (if 0 < m.tp + m.fp then (m.tp : ℚ) / (m.tp + m.fp) else 0) ∧
      m.recall' = pyRound 3 (if 0 < m.tp + m.fneg then (m.tp : ℚ) / (m.tp + m.fneg) else 0) ∧
      (m.tp + m.fp = 0 → m.precision = 0) ∧
      (m.tp + m.fneg = 0 → m.recall' = 0)) ∧
    (perFlagTP ds preds flag = 0 → perFlagFP ds preds flag = 0 →
      perFlagFN ds preds flag = 0 → perFlagMetrics ds preds flag = none) := by
  refine ⟨?_, ?_, ?_⟩
  · constructor
    · intro hne
      have h : flag ∈ allFlagNames ds preds := by
        by_contra hc
        exact hne (by simp [perFlagMetrics, hc])
      exact (counts_pos_iff ds preds flag).mpr ((mem_allFlagNames_iff ds preds flag).mp h)
    · intro hpos
      have h : flag ∈ allFlagNames ds preds :=
        (mem_allFlagNames_iff ds preds flag).mpr ((counts_pos_iff ds preds flag).mp hpos)
      simp [perFlagMetrics, h]
  · intro m hm
    by_cases h : flag ∈ allFlagNames ds preds
    · simp only [perFlagMetrics, if_pos h, Option.some_inj] at hm
      subst hm
      refine ⟨rfl, rfl, rfl, rfl, rfl, ?_, ?_⟩ <;>
        · intro hz
          simp only [hz, lt_irrefl, if_neg (lt_irrefl 0), if_neg (by omega : ¬ 0 < 0)]
          exact pyRound_zero 3
    · simp [perFlagMetrics, h] at hm
  · intro h1 h2 h3
    have : ¬ flag ∈ allFlagNames ds preds := by
      rw [mem_allFlagNames_iff, ← counts_pos_iff ds preds flag]
      omega
    simp [perFlagMetrics, this]

/-- Witness for C6: the zero-occurrence branch applied to the concrete
one-entry dataset. -/
theorem C6_witness : perFlagMetrics [eA1] [pA1] "NeverMentioned" = none :=
  (C6_theorem [eA1] [pA1] "NeverMentioned").2.2 (by decide) (by decide) (by decide)

/-! ## Claim C7 -/


/-- Every result is assigned one of the six buckets. -/
lemma get_match_type_mem (r : EvalResult) : get_match_type r ∈ matchTypes := by
  simp only [get_match_type]
  split_ifs <;> simp [matchTypes]

/-- Every result is assigned exactly one of the six buckets. -/
lemma matchTypes_count_one (r : EvalResult) : matchTypes.count (get_match_type r) = 1 := by
  simp only [get_match_type]
  split_ifs <;> decide

/-- The six bucket counts sum to the total. -/
lemma bucket_sum (rs : List EvalResult) :
    bucketCount rs "true_negative" + bucketCount rs "false_positive" +
      bucketCount rs "missed" + bucketCount rs "exact" + bucketCount rs "partial" +
      bucketCount rs "no_overlap" = rs.length := by
  induction rs with
  | nil => rfl
  | cons a l ih =>
      have h : get_match_type a = "true_negative" ∨ get_match_type a = "false_positive" ∨
          get_match_type a = "missed" ∨ get_match_type a = "exact" ∨
          get_match_type a = "partial" ∨ get_match_type a = "no_overlap" := by
        simpa [matchTypes] using get_match_type_mem a
      simp only [bucketCount, List.countP_cons] at ih ⊢
      rcases h with h1 | h1 | h1 | h1 | h1 | h1 <;> simp [h1] <;> omega

/-- Claim C7: `get_match_type` assigns each result exactly one of the six
buckets, the six bucket counts sum to `total`, and `detection_accuracy`
equals (exact + partial + no_overlap + true_negative) / total × 100 (rounded
to 2 decimals; 0 for the empty list). -/
theorem C7_theorem (results : List EvalResult) (r : EvalResult) :
    get_match_type r ∈ matchTypes ∧
    matchTypes.count (get_match_type r) = 1 ∧
    (bucketCount results "true_negative" + bucketCount results "false_positive" +
      bucketCount results "missed" + bucketCount results "exact" +
      bucketCount results "partial" + bucketCount results "no_overlap" = results.length) ∧
    (calculate_summary results).detection_accuracy =
      (if results.length = 0 then 0
       else pyRound 2
        ((((bucketCount results "exact" + bucketCount results "partial" +
            bucketCount results "no_overlap" + bucketCount results "true_negative") : ℕ) : ℚ) /
          results.length * 100)) := by
  refine ⟨get_match_type_mem r, matchTypes_count_one r, bucket_sum results, ?_⟩
  simp only [calculate_summary]
  split_ifs
  all_goals try rfl
  all_goals (exfalso; tauto)

/-! ## Claim C8 -/

/-- Claim C8: the false-positive rate on negatives is
(failed `true_negative` count) / (total `true_negative` count) × 100,
rounded to 1 decimal, and 0 when no `true_negative` cases exist; and on the
three-entry Scenario A dataset, `overall_pass_rate = 33.3` and
`false_positive_rate_on_negatives = 100.0`. -/
theorem C8_theorem (ds : List Entry) (preds : List Prediction) :
    (score ds preds).2.false_positive_rate_on_negatives =
      (if tnTotal (scoreResults ds preds) = 0 then 0
       else pyRound 1
        (100 * (tnFp (scoreResults ds preds) : ℚ) / tnTotal (scoreResults ds preds))) ∧
    (score [eA1, eA2, eA3] [pA1, pA2, pA3]).2.overall_pass_rate = 333 / 10 ∧
    (score [eA1, eA2, eA3] [pA1, pA2, pA3]).2.false_positive_rate_on_negatives = 100 := by
  refine ⟨?_, ?_, ?_⟩
  · by_cases h : tnTotal (scoreResults ds preds) = 0 <;> simp [score, h]
  · have hl : (scoreResults [eA1, eA2, eA3] [pA1, pA2, pA3]).length = 3 := by decide
    have hc : (scoreResults [eA1, eA2, eA3] [pA1, pA2, pA3]).countP (fun r => r.passed) = 1 := by
      decide
    simp only [score, hl, hc]
    norm_num [pyRound, roundHalfEven]
  · have htn : tnTotal (scoreResults [eA1, eA2, eA3] [pA1, pA2, pA3]) = 1 := by decide
    have htf : tnFp (scoreResults [eA1, eA2, eA3] [pA1, pA2, pA3]) = 1 := by decide
    simp only [score, htn, htf]
    norm_num [pyRound, roundHalfEven]

/-! ## Claim C1 -/



/-- On a parsed response, `evaluate_single` returns (rather than raises). -/
lemma evaluate_single_response (e : Entry) (status : ℕ) (body : EvalBody) :
    evaluate_single e (.response status body) = Except.ok (responsePrediction e status body) := by
  simp only [evaluate_single, responsePrediction]
  split_ifs <;> rfl


/-- Counterexample to claim C1.  A per-item timeout does not yield a
Prediction with `error` set: `evaluate_single` raises, and the exception
propagates out of `evaluate_all` (`asyncio.gather` without
`return_exceptions`), so no mapping — not even for the healthy sibling
item 1 — is returned. -/
theorem C1_counterexample :
    evaluate_single eA2 (timeoutTransport eA2) = Except.error "httpx.ReadTimeout" ∧
    evaluate_all [eA1, eA2] timeoutTransport = Except.error "httpx.ReadTimeout" :=
  ⟨rfl, rfl⟩

/-- Claim C1 as amended: only non-2xx *parsed responses* are captured per
item.  When every item's request produces a parsed response, `evaluate_all`
returns a prediction per entry, pointwise determined by that entry's own
outcome alone: a non-200 status yields `error` set (to the body's `error`
field, or `"HTTP <status>"`) with empty `predicted_flags`, and a 200 status
yields `error = None` with the body's flags.  (A timeout, transport error,
or malformed JSON body instead raises past the dispatcher boundary, as the
counterexample shows.) -/
theorem C1_theorem (ds : List Entry) (transport : Entry → HttpOutcome)
    (h : ∀ e ∈ ds, isResponse (transport e) = true) :
    ∃ preds, evaluate_all ds transport = Except.ok preds ∧
      List.Forall₂ (fun (e : Entry) (p : Prediction) =>
        evaluate_single e (transport e) = Except.ok p ∧
        p.id = e.id ∧
        ∀ status body, transport e = HttpOutcome.response status body →
          (status ≠ 200 → p.predicted_flags = [] ∧
            p.error = some (body.error.getD ("HTTP " ++ toString status))) ∧
          (status = 200 → p.predicted_flags = body.flags ∧ p.error = none)) ds preds := by
  induction ds with
  | nil => exact ⟨[], rfl, List.Forall₂.nil⟩
  | cons a l ih =>
      obtain ⟨preds, hall, hfa⟩ := ih (fun e he => h e (List.mem_cons_of_mem a he))
      have ha := h a (List.mem_cons_self a l)
      cases hta : transport a with
      | badJson status msg => rw [hta] at ha; simp [isResponse] at ha
      | transportFailure msg => rw [hta] at ha; simp [isResponse] at ha
      | response status body =>
          refine ⟨responsePrediction a status body :: preds, ?_, ?_⟩
          · unfold evaluate_all at hall ⊢
            rw [List.mapM_cons, hta, evaluate_single_response, hall]
            rfl
          · refine List.Forall₂.cons ⟨?_, ?_, ?_⟩ hfa
            · rw [hta]; exact evaluate_single_response a status body
            · unfold responsePrediction
              split_ifs <;> rfl
            · intro status' body' heq
              rw [hta] at heq
              injection heq with h1 h2
              subst h1; subst h2
              unfold responsePrediction
              split_ifs with hs
              · exact ⟨fun _ => ⟨rfl, rfl⟩, fun h200 => absurd h200 hs⟩
              · exact ⟨fun hne => absurd (not_not.mp hs) hne, fun _ => ⟨rfl, rfl⟩⟩


/-- Witness for C1: a two-entry batch in which one item fails with a parsed
non-2xx response and the sibling succeeds. -/
theorem C1_witness :
    ∃ preds, evaluate_all [eA1, eA2] respTransport = Except.ok preds ∧
      List.Forall₂ (fun (e : Entry) (p : Prediction) =>
        evaluate_single e (respTransport e) = Except.ok p ∧
        p.id = e.id ∧
        ∀ status body, respTransport e = HttpOutcome.response status body →
          (status ≠ 200 → p.predicted_flags = [] ∧
            p.error = some (body.error.getD ("HTTP " ++ toString status))) ∧
          (status = 200 → p.predicted_flags = body.flags ∧ p.error = none)) [eA1, eA2] preds :=
  C1_theorem [eA1, eA2] respTransport (by decide)

/-! ## Orchestrator lemmas shared by the loop claims -/

/-- Every branch of the loop body records the prompt passed to the
evaluation phase. -/
lemma trainStep_promptsUsed (O : Oracles) (ds : List Entry) (eo : Bool) (runNum : ℕ)
    (st : LoopState) :
    (trainStep O ds eo runNum st).1.log.promptsUsed =
      st.log.promptsUsed ++ [st.currentPrompt] := by
  simp only [trainStep]
  split_ifs <;> rfl

/-- Every branch of the loop body counts exactly one started run. -/
lemma trainStep_runsStarted (O : Oracles) (ds : List Entry) (eo : Bool) (runNum : ℕ)
    (st : LoopState) :
    (trainStep O ds eo runNum st).1.log.runsStarted = st.log.runsStarted + 1 := by
  simp only [trainStep]
  split_ifs <;> rfl

/-- The loop body, fully evaluated on the path that reaches the optimize
step: no prediction errored, not evaluate-only, the improvement and 100%
stops did not fire, there are judgments, and the taxonomy has patterns. -/
lemma trainStep_optimize_branch (O : Oracles) (ds : List Entry) (runNum : ℕ) (st : LoopState)
    (hE : (O.evaluate runNum st.currentPrompt).filter (fun p => truthyErr p.error) = [])
    (hImp : ¬(1 < runNum ∧
      (score ds (O.evaluate runNum st.currentPrompt)).2.overall_pass_rate - st.prevPassRate <
        IMPROVEMENT_THRESHOLD))
    (hRate : (score ds (O.evaluate runNum st.currentPrompt)).2.overall_pass_rate ≠ 100)
    (hJ : judge_failures O.judge (score ds (O.evaluate runNum st.currentPrompt)).1 ≠ [])
    (hP : (O.taxonomy
      (judge_failures O.judge (score ds (O.evaluate runNum st.currentPrompt)).1)).patterns ≠ []) :
    trainStep O ds false runNum st =
      ({ currentPrompt := some
            ((O.optimizer (st.currentPrompt.getD get_default_prompt)
                (score ds (O.evaluate runNum st.currentPrompt)).2
                (O.taxonomy (judge_failures O.judge
                  (score ds (O.evaluate runNum st.currentPrompt)).1))
                (judge_failures O.judge
                  (score ds (O.evaluate runNum st.currentPrompt)).1)).prompt.getD
              (st.currentPrompt.getD get_default_prompt))
         prevPassRate := (score ds (O.evaluate runNum st.currentPrompt)).2.overall_pass_rate
         log := { promptsUsed := st.log.promptsUsed ++ [st.currentPrompt]
                  runsStarted := st.log.runsStarted + 1
                  scoredRuns := st.log.scoredRuns ++ [runNum]
                  artifacts := st.log.artifacts ++
                    [(runNum, "results.json"), (runNum, "metrics.json"),
                     (runNum, "prompt.txt")] ++ [(runNum, "failures.json")] ++
                    [(runNum, "taxonomy.json")]
                  optimizeCalls := st.log.optimizeCalls + 1
                  optimizedRuns := st.log.optimizedRuns ++ [runNum] } }, false) := by
  simp only [trainStep, build_taxonomy, optimize_prompt, hE, hJ, hP]
  rw [if_neg (by simp), if_neg hImp, if_neg hRate]
  simp [hP]

/-- The loop starts at most `fuel` runs. -/
lemma runLoopAux_runsStarted (O : Oracles) (ds : List Entry) (eo : Bool) :
    ∀ (fuel start : ℕ) (st : LoopState),
      (runLoopAux O ds eo fuel start st).log.runsStarted ≤ st.log.runsStarted + fuel := by
  intro fuel
  induction fuel with
  | zero => intro start st; simp [runLoopAux]
  | succ k ih =>
      intro start st
      simp only [runLoopAux]
      by_cases h : (trainStep O ds eo start st).2 = true
      · rw [if_pos h, trainStep_runsStarted]
        omega
      · rw [if_neg h]
        have h1 := ih (start + 1) (trainStep O ds eo start st).1
        rw [trainStep_runsStarted] at h1
        omega

/-! ## Claim C2 -/

/-- Claim C2: when any prediction of the evaluation phase carries a truthy
(non-empty) error, the iteration stops right there (`break`): `score` is not
invoked (no run number is added to `scoredRuns`), no artifact of any kind is
written for that run, and the loop performs no further iteration — the final
state is the aborted step's state, whatever fuel remains. -/
theorem C2_theorem (O : Oracles) (ds : List Entry) (eo : Bool) (runNum : ℕ) (st : LoopState)
    (h : (O.evaluate runNum st.currentPrompt).filter (fun p => truthyErr p.error) ≠ []) :
    trainStep O ds eo runNum st =
      ({ st with log := { st.log with
            promptsUsed := st.log.promptsUsed ++ [st.currentPrompt]
            runsStarted := st.log.runsStarted + 1 } }, true) ∧
    (trainStep O ds eo runNum st).1.log.scoredRuns = st.log.scoredRuns ∧
    (trainStep O ds eo runNum st).1.log.artifacts = st.log.artifacts ∧
    (trainStep O ds eo runNum st).2 = true ∧
    ∀ fuel, runLoopAux O ds eo (fuel + 1) runNum st = (trainStep O ds eo runNum st).1 := by
  have hmain : trainStep O ds eo runNum st =
      ({ st with log := { st.log with
            promptsUsed := st.log.promptsUsed ++ [st.currentPrompt]
            runsStarted := st.log.runsStarted + 1 } }, true) := by
    simp only [trainStep]
    rw [if_pos h]
  refine ⟨hmain, by rw [hmain], by rw [hmain], by rw [hmain], ?_⟩
  intro fuel
  have e : runLoopAux O ds eo (fuel + 1) runNum st =
      (if (trainStep O ds eo runNum st).2 = true then (trainStep O ds eo runNum st).1
       else runLoopAux O ds eo fuel (runNum + 1) (trainStep O ds eo runNum st).1) := rfl
  rw [e, hmain]
  rfl


/-- Witness for C2: a run whose single prediction errored. -/
theorem C2_witness :
    (trainStep errOracle [eA1] false 1 initState).1.log.scoredRuns = initState.log.scoredRuns ∧
    (trainStep errOracle [eA1] false 1 initState).1.log.artifacts = initState.log.artifacts ∧
    (trainStep errOracle [eA1] false 1 initState).2 = true ∧
    runLoopAux errOracle [eA1] false 1 1 initState =
      (trainStep errOracle [eA1] false 1 initState).1 := by
  have h := C2_theorem errOracle [eA1] false 1 initState (by decide)
  exact ⟨h.2.1, h.2.2.1, h.2.2.2.1, h.2.2.2.2 0⟩

/-! ## Claims C3 and C4: shared concrete loop fixtures -/


/-- On the one-entry dataset with the missing-flag prediction, the overall
pass rate is 0. -/
lemma rate_fail_one : (score [eA1] [predMiss]).2.overall_pass_rate = 0 := by
  have hl : (scoreResults [eA1] [predMiss]).length = 1 := by decide
  have hc : (scoreResults [eA1] [predMiss]).countP (fun r => r.passed) = 0 := by decide
  simp only [score, hl, hc]
  norm_num [pyRound, roundHalfEven]



/-! ## Claim C4 -/

/-- Counterexample to claim C4.  With `max_iterations = 1`, the single (and
hence final) iteration reaches the optimize step and the prompt-optimization
LLM call IS made (`optimizedRuns = [1]`, one call), contradicting "on the
final iteration no prompt-optimization call is made". -/
theorem C4_counterexample :
    (run_training failOracle [eA1] (some 1) false).log.optimizedRuns = [1] ∧
    (run_training failOracle [eA1] (some 1) false).log.runsStarted = 1 ∧
    (run_training failOracle [eA1] (some 1) false).log.optimizeCalls = 1 := by
  have hstep := trainStep_optimize_branch failOracle [eA1] 1 initState (by decide)
    (by simp)
    (by show (score [eA1] [predMiss]).2.overall_pass_rate ≠ 100
        rw [rate_fail_one]; norm_num)
    (by decide) (by decide)
  have e1 : run_training failOracle [eA1] (some 1) false =
      (if (trainStep failOracle [eA1] false 1 initState).2 = true
       then (trainStep failOracle [eA1] false 1 initState).1
       else runLoopAux failOracle [eA1] false 0 2
         (trainStep failOracle [eA1] false 1 initState).1) := rfl
  rw [e1, hstep]
  exact ⟨rfl, rfl, rfl⟩

/-- Claim C4 as amended: the loop does stop once the iteration counter
reaches the configured maximum (at most `n` runs are started for
`max_iterations = n ≠ 0`), but the optimize step is not skipped on the
final iteration — if run `n` reaches the optimize step, the
prompt-optimization call is still made there (its result is assigned to the
current prompt and never used for a further evaluation). -/
theorem C4_theorem (O : Oracles) (ds : List Entry) (eo : Bool) (n : ℕ) (st : LoopState)
    (hn : n ≠ 0)
    (hE : (O.evaluate n st.currentPrompt).filter (fun p => truthyErr p.error) = [])
    (hImp : ¬(1 < n ∧
      (score ds (O.evaluate n st.currentPrompt)).2.overall_pass_rate - st.prevPassRate <
        IMPROVEMENT_THRESHOLD))
    (hRate : (score ds (O.evaluate n st.currentPrompt)).2.overall_pass_rate ≠ 100)
    (hJ : judge_failures O.judge (score ds (O.evaluate n st.currentPrompt)).1 ≠ [])
    (hP : (O.taxonomy
      (judge_failures O.judge (score ds (O.evaluate n st.currentPrompt)).1)).patterns ≠ []) :
    (run_training O ds (some n) eo).log.runsStarted ≤ n ∧
    (trainStep O ds false n st).1.log.optimizeCalls = st.log.optimizeCalls + 1 ∧
    (trainStep O ds false n st).1.log.optimizedRuns = st.log.optimizedRuns ++ [n] ∧
    (trainStep O ds false n st).2 = false := by
  have hstep := trainStep_optimize_branch O ds n st hE hImp hRate hJ hP
  refine ⟨?_, by rw [hstep], by rw [hstep], by rw [hstep]⟩
  have hrt : run_training O ds (some n) eo = runLoopAux O ds eo n 1 initState := by
    simp only [run_training, if_neg hn]
  rw [hrt]
  have h1 := runLoopAux_runsStarted O ds eo n 1 initState
  have h0 : initState.log.runsStarted = 0 := rfl
  omega

/-- Witness for C4: the one-iteration concrete run of the counterexample. -/
theorem C4_witness :
    (run_training failOracle [eA1] (some 1) false).log.runsStarted ≤ 1 ∧
    (trainStep failOracle [eA1] false 1 initState).1.log.optimizeCalls =
      initState.log.optimizeCalls + 1 ∧
    (trainStep failOracle [eA1] false 1 initState).1.log.optimizedRuns =
      initState.log.optimizedRuns ++ [1] ∧
    (trainStep failOracle [eA1] false 1 initState).2 = false :=
  C4_theorem failOracle [eA1] false 1 initState (by decide) (by decide)
    (by simp)
    (by show (score [eA1] [predMiss]).2.overall_pass_rate ≠ 100
        rw [rate_fail_one]; norm_num)
    (by decide) (by decide)

/-! ## Claim C3 -/

/-- Counterexample to claim C3.  The optimizer returns the prompt
`"broken"`, which violates the structural constraints (its placeholders are
absent); the orchestrator performs no validation, and run 2 of the training
loop evaluates with `"broken"` instead of keeping run 1's prompt (the
default prompt, sent as `None`). -/
theorem C3_counterexample :
    promptMeetsConstraints "broken" = false ∧
    (run_training badPromptOracle [eA1] (some 2) false).log.promptsUsed =
      [none, some "broken"] ∧
    (some "broken" : Option String) ≠ none ∧
    "broken" ≠ get_default_prompt := by
  refine ⟨by decide, ?_, by decide, by decide⟩
  have hstep := trainStep_optimize_branch badPromptOracle [eA1] 1 initState (by decide)
    (by simp)
    (by show (score [eA1] [predMiss]).2.overall_pass_rate ≠ 100
        rw [rate_fail_one]; norm_num)
    (by decide) (by decide)
  have e2 : ∀ (x : LoopState), runLoopAux badPromptOracle [eA1] false 1 2 x =
      (trainStep badPromptOracle [eA1] false 2 x).1 := by
    intro x
    show (if (trainStep badPromptOracle [eA1] false 2 x).2 = true
          then (trainStep badPromptOracle [eA1] false 2 x).1
          else runLoopAux badPromptOracle [eA1] false 0 3
            (trainStep badPromptOracle [eA1] false 2 x).1) =
        (trainStep badPromptOracle [eA1] false 2 x).1
    by_cases h : (trainStep badPromptOracle [eA1] false 2 x).2 = true
    · rw [if_pos h]
    · rw [if_neg h]; rfl
  have e1 : run_training badPromptOracle [eA1] (some 2) false =
      (if (trainStep badPromptOracle [eA1] false 1 initState).2 = true
       then (trainStep badPromptOracle [eA1] false 1 initState).1
       else runLoopAux badPromptOracle [eA1] false 1 2
         (trainStep badPromptOracle [eA1] false 1 initState).1) := rfl
  have hsnd : (trainStep badPromptOracle [eA1] false 1 initState).2 = false := by
    rw [hstep]
  have hcp : (trainStep badPromptOracle [eA1] false 1 initState).1.currentPrompt =
      some "broken" := by
    rw [hstep]
    rfl
  have hfin : run_training badPromptOracle [eA1] (some 2) false =
      runLoopAux badPromptOracle [eA1] false 1 2
        (trainStep badPromptOracle [eA1] false 1 initState).1 := by
    rw [e1, if_neg (by simp [hsnd])]
  rw [hfin, e2, trainStep_promptsUsed, trainStep_promptsUsed, hcp]
  rfl

/-- Claim C3 as amended: the orchestrator performs no structural validation
of the optimizer's returned prompt.  Whenever the taxonomy has patterns, the
returned prompt (violating or not) is accepted verbatim and becomes the next
iteration's prompt; the prior prompt is kept only when the optimizer's
response lacks a `prompt` key (`result.get("prompt", current_prompt)`). -/
theorem C3_theorem (O : Oracles) (ds : List Entry) (runNum : ℕ) (st : LoopState)
    (hE : (O.evaluate runNum st.currentPrompt).filter (fun p => truthyErr p.error) = [])
    (hImp : ¬(1 < runNum ∧
      (score ds (O.evaluate runNum st.currentPrompt)).2.overall_pass_rate - st.prevPassRate <
        IMPROVEMENT_THRESHOLD))
    (hRate : (score ds (O.evaluate runNum st.currentPrompt)).2.overall_pass_rate ≠ 100)
    (hJ : judge_failures O.judge (score ds (O.evaluate runNum st.currentPrompt)).1 ≠ [])
    (hP : (O.taxonomy
      (judge_failures O.judge (score ds (O.evaluate runNum st.currentPrompt)).1)).patterns ≠ []) :
    (trainStep O ds false runNum st).1.currentPrompt =
      some ((O.optimizer (st.currentPrompt.getD get_default_prompt)
              (score ds (O.evaluate runNum st.currentPrompt)).2
              (O.taxonomy (judge_failures O.judge
                (score ds (O.evaluate runNum st.currentPrompt)).1))
              (judge_failures O.judge
                (score ds (O.evaluate runNum st.currentPrompt)).1)).prompt.getD
            (st.currentPrompt.getD get_default_prompt)) ∧
    (∀ (optimO : String → Metrics → Taxonomy → List Judgment → OptimizerResult)
        (current : String) (metrics : Metrics) (tax : Taxonomy) (judgments : List Judgment),
      tax.patterns ≠ [] →
        optimize_prompt optimO current metrics tax judgments =
          ((optimO current metrics tax judgments).prompt.getD current, 1)) := by
  have hstep := trainStep_optimize_branch O ds runNum st hE hImp hRate hJ hP
  refine ⟨by rw [hstep], ?_⟩
  intro optimO current metrics tax judgments hp
  simp [optimize_prompt, hp]

/-- Witness for C3: under `badPromptOracle` the constraint-violating prompt
`"broken"` is accepted verbatim as the next iteration's prompt. -/
theorem C3_witness :
    (trainStep badPromptOracle [eA1] false 1 initState).1.currentPrompt = some "broken" ∧
    optimize_prompt badPromptOracle.optimizer "current" (score [] []).2
      { patterns := [{ pattern := "p", count := 1, example_ids := [], fix_direction := none }] }
      [] = ("broken", 1) := by
  have h := C3_theorem badPromptOracle [eA1] 1 initState (by decide)
    (by simp)
    (by show (score [eA1] [predMiss]).2.overall_pass_rate ≠ 100
        rw [rate_fail_one]; norm_num)
    (by decide) (by decide)
  exact ⟨h.1, h.2 badPromptOracle.optimizer "current" (score [] []).2 _ [] (by decide)⟩

end Clarity
